import Mathlib

/-!
# minha-receita: the transform orchestrator (`transform/transform.go`)

A shallow embedding of `transformMode`, `saveUpdatedAt`, `runStepOne`,
`runStepTwo` and `Transform`.

* Go's `error` is `Option Err` (`none` is `nil`); `errors.New` and
  `fmt.Errorf("...: %w", err)` are the two constructors of `Err`.
* What the functions do to the outside (directories, the staging store, the
  database, standard output) is recorded as a list of `Event`s, oldest first.
* What the outside answers (the file system, the clock, Badger, the task that
  writes the batches, the database) is a parameter: `World`, `kvStorage`,
  `Task` and `database` hold the answer of every call the source makes.
* A `defer` is run after the value of the `return` has been computed, and its
  own result is dropped, as in Go.
-/

namespace MinhaReceita

/-! ## Errors -/

/-- Go error values: one made by `errors.New` (or by a collaborator), or one
made by `fmt.Errorf(ctx + ": %w", cause)`. -/
inductive Err where
  | new (msg : String)
  | wrap (ctx : String) (cause : Err)
  deriving DecidableEq, Repr

/-- Go's `error` interface value: `none` is `nil`. -/
abbrev error := Option Err

/-- The text of `err.Error()`. -/
def Err.Error : Err → String
  | .new msg => msg
  | .wrap ctx cause => ctx ++ ": " ++ cause.Error

/-- The result of `errors.Unwrap(err)`. -/
def Err.Unwrap : Err → error
  | .new _ => none
  | .wrap _ cause => some cause

/-- The chain that `errors.Is` walks: the error, then what it wraps, and so on. -/
def Err.chain : Err → List Err
  | .new msg => [.new msg]
  | .wrap ctx cause => .wrap ctx cause :: cause.chain

/-! ## Constants and the mode -/

/-- The default for the maximum number of parallel save queries. -/
def MaxParallelDBQueries : Int := 8

/-- The size of the batches used to create the JSON data in the database. -/
def BatchSize : Int := 8192

/-- The three constants of `type mode int`, in the order of their `iota`. -/
inductive mode where
  | both
  | stepOne
  | stepTwo
  deriving DecidableEq, Repr

export mode (both stepOne stepTwo)

/-- The integer behind each constant (`both mode = iota`). -/
def mode.toInt : mode → Int
  | .both => 0
  | .stepOne => 1
  | .stepTwo => 2

/-! ## Collaborators -/

/-- The lookup tables. This file only passes them on. -/
abbrev lookups := Unit

/-- A call that the batch-writing task makes on the database. -/
inductive SinkCall where
  | PreLoad
  | CreateCompanies (batch : List (List String))
  | PostLoad
  deriving DecidableEq, Repr

/-- The `database` interface: the answer of each method. -/
structure database where
  PreLoad : error
  CreateCompanies : List (List String) → error
  PostLoad : error
  MetaSave : String → String → error

/-- The `kvStorage` interface, as far as this file calls it: `load(dir, &l)`
and `close()`. (`enrichCompany` is called by the task only.) -/
structure kvStorage where
  load : String → lookups → error
  close : error

/-- Modelled from the spec: the value `j` that `createJSONRecordsTask` returns,
whose code is not in this file. `j.run(maxParallelDBQueries)` calls the
database's `PreLoad`, `CreateCompanies` (once a batch) and `PostLoad`, and
returns an error or `nil`; `run` gives the calls it made, in order, and what it
returned. -/
structure Task where
  run : Int → List SinkCall × error

/-- Everything outside the file that the code calls. `newBadgerStorage` takes,
before its path, how many stores this run has asked for so far, so that two
calls on the same path may answer differently. -/
structure World where
  now : String
  MkdirTemp : String → String → Except Err String
  ReadFile : String → Except Err String
  Join : String → String → String
  FederalRevenueUpdatedAt : String
  newLookups : String → Except Err lookups
  newBadgerStorage : Nat → String → Except Err kvStorage
  createJSONRecordsTask : String → database → lookups → kvStorage → Int → Bool → Except Err Task

/-! ## Events and state -/

/-- Equality of two results is decidable when it is for errors and values. -/
instance instDecidableEqExcept {ε α : Type} [DecidableEq ε] [DecidableEq α] :
    DecidableEq (Except ε α) := fun a b =>
  match a, b with
  | .error x, .error y =>
    if h : x = y then isTrue (by rw [h]) else isFalse (fun h2 => h (by cases h2; rfl))
  | .ok x, .ok y =>
    if h : x = y then isTrue (by rw [h]) else isFalse (fun h2 => h (by cases h2; rfl))
  | .error _, .ok _ => isFalse (fun h => by cases h)
  | .ok _, .error _ => isFalse (fun h => by cases h)

/-- One call on the outside, with its arguments and, where the code looks at
it or drops it, its result. The number `h` names a store handle: the `h`-th
call of `newBadgerStorage` in the run. -/
inductive Event where
  | MkdirTemp (dir pattern : String) (res : Except Err String)
  | RemoveAll (path : String)
  | newLookups (dir : String) (err : error)
  | newBadgerStorage (h : Nat) (path : String) (err : error)
  | load (h : Nat) (dir : String) (err : error)
  | close (h : Nat) (err : error)
  | createJSONRecordsTask (dir : String) (h : Nat) (batchSize : Int) (privacy : Bool) (err : error)
  | sink (c : SinkCall)
  | run (maxParallelDBQueries : Int) (err : error)
  | logOutput (calldepth : Int) (msg : String)
  | ReadFile (path : String) (res : Except Err String)
  | MetaSave (key value : String) (err : error)
  | Println (s : String)
  deriving DecidableEq

/-- The events so far, oldest first, and the number of stores asked for. -/
structure State where
  trace : List Event
  opened : Nat
  deriving DecidableEq

/-- Record one more event. -/
def State.emit (st : State) (e : Event) : State :=
  { st with trace := st.trace ++ [e] }

/-! ## The functions of `transform.go` -/

/-- The mode that the two command-line inputs ask for, and an error when they
ask for both steps at once. Go returns the pair `(mode, error)`. -/
def transformMode (s1 : Bool) (s2 : String) : mode × error :=
  if s1 && s2 != "" then
    (both, some (Err.new "cannot use both --step-one and --step-two"))
  else if s1 && s2 == "" then
    (stepOne, none)
  else if !s1 && s2 != "" then
    (stepTwo, none)
  else
    (both, none)

/-- Read the updated-at file of `dir` and save its content in the database. -/
def saveUpdatedAt (w : World) (db : database) (dir : String) (st : State) : error × State :=
  let st := st.emit (.logOutput 1 "Saving the updated at date to the database…")
  let p := w.Join dir w.FederalRevenueUpdatedAt
  let res := w.ReadFile p
  let st := st.emit (.ReadFile p res)
  match res with
  | .error err => (some (.wrap ("error reading " ++ p) err), st)
  | .ok v =>
    let r := db.MetaSave "updated-at" v
    (r, st.emit (.MetaSave "updated-at" v r))

/-- Step one: open the store at `pth` and load the data of `dir` into it. The
deferred `kv.close()` runs on every return after the store was opened. -/
def runStepOne (w : World) (dir pth : String) (l : lookups) (st : State) : error × State :=
  let h := st.opened
  match w.newBadgerStorage h pth with
  | .error err =>
    (some (.wrap "could not create badger storage" err),
      ⟨st.trace ++ [.newBadgerStorage h pth (some err)], h + 1⟩)
  | .ok kv =>
    let st : State := ⟨st.trace ++ [.newBadgerStorage h pth none], h + 1⟩
    let body : error × State :=
      match kv.load dir l with
      | some err =>
        (some (.wrap "error loading data to badger" err), st.emit (.load h dir (some err)))
      | none => (none, st.emit (.load h dir none))
    (body.1, body.2.emit (.close h kv.close))

/-- Step two: open the store at `pth`, create the task, run it, and save the
updated-at date. The deferred `kv.close()` runs on every return after the
store was opened. -/
def runStepTwo (w : World) (dir pth : String) (db : database) (l : lookups)
    (maxParallelDBQueries batchSize : Int) (privacy : Bool) (st : State) : error × State :=
  let h := st.opened
  match w.newBadgerStorage h pth with
  | .error err =>
    (some (.wrap "could not create badger storage" err),
      ⟨st.trace ++ [.newBadgerStorage h pth (some err)], h + 1⟩)
  | .ok kv =>
    let st : State := ⟨st.trace ++ [.newBadgerStorage h pth none], h + 1⟩
    let body : error × State :=
      match w.createJSONRecordsTask dir db l kv batchSize privacy with
      | .error err =>
        (some (.wrap ("error creating new task for venues in " ++ dir) err),
          st.emit (.createJSONRecordsTask dir h batchSize privacy (some err)))
      | .ok j =>
        let st := st.emit (.createJSONRecordsTask dir h batchSize privacy none)
        let out := j.run maxParallelDBQueries
        let st : State :=
          ⟨st.trace ++ out.1.map Event.sink ++ [.run maxParallelDBQueries out.2], st.opened⟩
        match out.2 with
        | some err => (some (.wrap "error writing venues to database" err), st)
        | none => saveUpdatedAt w db dir st
    (body.1, body.2.emit (.close h kv.close))

/-- Transform the downloaded files, creating a database record per CNPJ. The
deferred `os.RemoveAll(pth)` runs on every return after `pth` was settled. -/
def Transform (w : World) (dir : String) (db : database) (max s : Int) (p s1 : Bool)
    (s2 : String) : error × State :=
  let st : State := ⟨[], 0⟩
  match transformMode s1 s2 with
  | (_, some err) => (some (.wrap "error determining transform mode" err), st)
  | (m, none) =>
    let got : Except Err String × State :=
      if m = stepTwo then
        (.ok s2, st)
      else
        let pattern := "minha-receita-" ++ w.now ++ "-*"
        let res := w.MkdirTemp "" pattern
        (res, st.emit (.MkdirTemp "" pattern res))
    match got with
    | (.error err, st) =>
      (some (.wrap "error creating temporary key-value storage" err), st)
    | (.ok pth, st) =>
      let body : error × State :=
        match w.newLookups dir with
        | .error err =>
          (some (.wrap ("error creating look up tables from " ++ dir) err),
            st.emit (.newLookups dir (some err)))
        | .ok l =>
          let st := st.emit (.newLookups dir none)
          match m with
          | .stepOne =>
            match runStepOne w dir pth l st with
            | (some err, st) => (some err, st)
            | (none, st) => (none, st.emit (.Println pth))
          | .stepTwo => runStepTwo w dir pth db l max s p st
          | .both =>
            match runStepOne w dir pth l st with
            | (some err, st) => (some err, st)
            | (none, st) => runStepTwo w dir pth db l max s p st
      (body.1, body.2.emit (.RemoveAll pth))

/-! ## Reading a trace -/

/-- Whether the directory `path` is on disk after one more event, given
whether it was before: `os.MkdirTemp` that succeeds creates the directory it
names, `os.RemoveAll` removes the one it is given. This is the documented
effect of `os.RemoveAll` on a path it accepts, such as one that `os.MkdirTemp`
returned; the paths it refuses (`.` and those ending in `/.`) and removals
that fail are not covered, and the code drops the error that would tell. -/
def diskStep (path : String) (present : Bool) : Event → Bool
  | .MkdirTemp _ _ (.ok created) => if created = path then true else present
  | .RemoveAll removed => if removed = path then false else present
  | _ => present

/-- Whether the directory `path` is on disk after the events of `trace`. -/
def onDisk (path : String) (present : Bool) (trace : List Event) : Bool :=
  trace.foldl (diskStep path) present

/-- The handle that is open after one more event: `none` inside when no
handle is open, and `none` outside when the event breaks the rule that a store
is opened only while none is open and that `close` is called on the open one. -/
def handleStep (cur : Option Nat) : Event → Option (Option Nat)
  | .newBadgerStorage h _ none =>
    match cur with
    | none => some (some h)
    | some _ => none
  | .close h _ => if cur = some h then some none else none
  | _ => some cur

/-- The handle that is open after the events of `trace`, starting from `cur`. -/
def handleRun (cur : Option Nat) : List Event → Option (Option Nat)
  | [] => some cur
  | e :: rest =>
    match handleStep cur e with
    | none => none
    | some next => handleRun next rest

/-- The calls on the staging store in `trace`: opening and closing. -/
def storeOps : List Event → List Event
  | [] => []
  | .newBadgerStorage h path err :: rest => .newBadgerStorage h path err :: storeOps rest
  | .close h err :: rest => .close h err :: storeOps rest
  | _ :: rest => storeOps rest

/-- Whether an event is a call of the database's `MetaSave`. -/
def isMetaSave : Event → Bool
  | .MetaSave _ _ _ => true
  | _ => false

/-- Whether every call of `MetaSave` in a trace comes after a return of the
task's `run`, the latest of which returned `nil`; `ran` says whether that is so
before the trace. -/
def savedAfterRun (ran : Bool) : List Event → Bool
  | [] => true
  | .run _ r :: rest => savedAfterRun r.isNone rest
  | .MetaSave _ _ _ :: rest => ran && savedAfterRun ran rest
  | _ :: rest => savedAfterRun ran rest

/-- Whether an event is a step that returned an error which the code looks
at. The results of `close`, `RemoveAll`, `Println` and `log.Output` are dropped
by the code, and the calls of the task on the database are not its own. -/
def stepFailed : Event → Bool
  | .MkdirTemp _ _ (.error _) => true
  | .newLookups _ (some _) => true
  | .newBadgerStorage _ _ (some _) => true
  | .load _ _ (some _) => true
  | .createJSONRecordsTask _ _ _ _ (some _) => true
  | .run _ (some _) => true
  | .ReadFile _ (.error _) => true
  | .MetaSave _ _ (some _) => true
  | _ => false

/-- Whether an event is one of the failures of step two before the
updated-at date is saved: a store that could not be opened, a task that could
not be created, a task whose `run` returned an error. -/
def batchWriteFailed : Event → Bool
  | .newBadgerStorage _ _ (some _) => true
  | .createJSONRecordsTask _ _ _ _ (some _) => true
  | .run _ (some _) => true
  | _ => false

/-- Whether an event is a call of `os.MkdirTemp`. -/
def isMkdirTemp : Event → Bool
  | .MkdirTemp _ _ _ => true
  | _ => false

/-- The paths given to `os.RemoveAll` in a trace, in order. -/
def removed : List Event → List String
  | [] => []
  | .RemoveAll path :: rest => path :: removed rest
  | _ :: rest => removed rest

/-! ## Sample collaborators -/

/-- A store whose `load` and `close` succeed. -/
def okKv : kvStorage := ⟨fun _ _ => none, none⟩

/-- A store whose `load` succeeds and whose `close` fails. -/
def badCloseKv : kvStorage := ⟨fun _ _ => none, some (.new "cannot flush")⟩

/-- A task that writes one batch and succeeds. -/
def okTask : Task :=
  ⟨fun _ => ([.PreLoad, .CreateCompanies [["11111111", "\x7b\x7d"]], .PostLoad], none)⟩

/-- A task whose batch write fails. -/
def badTask : Task :=
  ⟨fun _ => ([.PreLoad, .CreateCompanies [["11111111", "\x7b\x7d"]]], some (.new "batch failed"))⟩

/-- A database whose every method succeeds. -/
def okDb : database := ⟨none, fun _ => none, none, fun _ _ => none⟩

/-- A database whose `MetaSave` fails. -/
def badMetaDb : database := ⟨none, fun _ => none, none, fun _ _ => some (.new "connection refused")⟩

/-- An outside where every call succeeds. -/
def okWorld : World :=
  ⟨"20240102030405", fun _ _ => .ok "/tmp/minha-receita-20240102030405-1",
    fun _ => .ok "2024-01-02", fun dir name => dir ++ "/" ++ name, "updated_at.txt",
    fun _ => .ok (), fun _ _ => .ok okKv, fun _ _ _ _ _ _ => .ok okTask⟩

/-- The outside of `okWorld`, with stores that cannot be closed. -/
def badCloseWorld : World :=
  ⟨"20240102030405", fun _ _ => .ok "/tmp/minha-receita-20240102030405-1",
    fun _ => .ok "2024-01-02", fun dir name => dir ++ "/" ++ name, "updated_at.txt",
    fun _ => .ok (), fun _ _ => .ok badCloseKv, fun _ _ _ _ _ _ => .ok okTask⟩

/-- The outside of `okWorld`, with a task whose batch write fails. -/
def badRunWorld : World :=
  ⟨"20240102030405", fun _ _ => .ok "/tmp/minha-receita-20240102030405-1",
    fun _ => .ok "2024-01-02", fun dir name => dir ++ "/" ++ name, "updated_at.txt",
    fun _ => .ok (), fun _ _ => .ok okKv, fun _ _ _ _ _ _ => .ok badTask⟩

/-- The outside of `okWorld`, where no file can be read. -/
def noFileWorld : World :=
  ⟨"20240102030405", fun _ _ => .ok "/tmp/minha-receita-20240102030405-1",
    fun _ => .error (.new "no such file"), fun dir name => dir ++ "/" ++ name, "updated_at.txt",
    fun _ => .ok (), fun _ _ => .ok okKv, fun _ _ _ _ _ _ => .ok okTask⟩

/-! ## The returns of each function -/

/-- Every return of `saveUpdatedAt`: the read fails, or the read succeeds and
`MetaSave` is called. -/
theorem saveUpdatedAt_cases (P : error × State → Prop) (w : World) (db : database)
    (dir : String) (st : State)
    (hread : ∀ e, w.ReadFile (w.Join dir w.FederalRevenueUpdatedAt) = .error e →
      P (some (.wrap ("error reading " ++ w.Join dir w.FederalRevenueUpdatedAt) e),
        ⟨st.trace ++ [.logOutput 1 "Saving the updated at date to the database…",
          .ReadFile (w.Join dir w.FederalRevenueUpdatedAt) (.error e)], st.opened⟩))
    (hsave : ∀ v, w.ReadFile (w.Join dir w.FederalRevenueUpdatedAt) = .ok v →
      P (db.MetaSave "updated-at" v,
        ⟨st.trace ++ [.logOutput 1 "Saving the updated at date to the database…",
          .ReadFile (w.Join dir w.FederalRevenueUpdatedAt) (.ok v),
          .MetaSave "updated-at" v (db.MetaSave "updated-at" v)], st.opened⟩)) :
    P (saveUpdatedAt w db dir st) := by
  rcases hrd : w.ReadFile (w.Join dir w.FederalRevenueUpdatedAt) with e | v
  · have h := hread e hrd
    simpa [saveUpdatedAt, State.emit, hrd] using h
  · have h := hsave v hrd
    simpa [saveUpdatedAt, State.emit, hrd] using h

/-- Every return of `runStepOne`. -/
theorem runStepOne_cases (P : error × State → Prop) (w : World) (dir pth : String)
    (l : lookups) (st : State)
    (hopen : ∀ e, w.newBadgerStorage st.opened pth = .error e →
      P (some (.wrap "could not create badger storage" e),
        ⟨st.trace ++ [.newBadgerStorage st.opened pth (some e)], st.opened + 1⟩))
    (hload : ∀ kv e, w.newBadgerStorage st.opened pth = .ok kv → kv.load dir l = some e →
      P (some (.wrap "error loading data to badger" e),
        ⟨st.trace ++ [.newBadgerStorage st.opened pth none, .load st.opened dir (some e),
          .close st.opened kv.close], st.opened + 1⟩))
    (hok : ∀ kv, w.newBadgerStorage st.opened pth = .ok kv → kv.load dir l = none →
      P (none,
        ⟨st.trace ++ [.newBadgerStorage st.opened pth none, .load st.opened dir none,
          .close st.opened kv.close], st.opened + 1⟩)) :
    P (runStepOne w dir pth l st) := by
  rcases ho : w.newBadgerStorage st.opened pth with e | kv
  · simpa [runStepOne, ho] using hopen e ho
  rcases hl : kv.load dir l with _ | e
  · simpa [runStepOne, State.emit, ho, hl] using hok kv ho hl
  · simpa [runStepOne, State.emit, ho, hl] using hload kv e ho hl

/-- Every return of `runStepTwo`. -/
theorem runStepTwo_cases (P : error × State → Prop) (w : World) (dir pth : String)
    (db : database) (l : lookups) (max s : Int) (p : Bool) (st : State)
    (hopen : ∀ e, w.newBadgerStorage st.opened pth = .error e →
      P (some (.wrap "could not create badger storage" e),
        ⟨st.trace ++ [.newBadgerStorage st.opened pth (some e)], st.opened + 1⟩))
    (htask : ∀ kv e, w.newBadgerStorage st.opened pth = .ok kv →
      w.createJSONRecordsTask dir db l kv s p = .error e →
      P (some (.wrap ("error creating new task for venues in " ++ dir) e),
        ⟨st.trace ++ [.newBadgerStorage st.opened pth none,
          .createJSONRecordsTask dir st.opened s p (some e),
          .close st.opened kv.close], st.opened + 1⟩))
    (hrun : ∀ kv j e, w.newBadgerStorage st.opened pth = .ok kv →
      w.createJSONRecordsTask dir db l kv s p = .ok j → (j.run max).2 = some e →
      P (some (.wrap "error writing venues to database" e),
        ⟨st.trace ++ [.newBadgerStorage st.opened pth none,
          .createJSONRecordsTask dir st.opened s p none] ++ (j.run max).1.map Event.sink ++
          [.run max (some e), .close st.opened kv.close], st.opened + 1⟩))
    (hread : ∀ kv j e, w.newBadgerStorage st.opened pth = .ok kv →
      w.createJSONRecordsTask dir db l kv s p = .ok j → (j.run max).2 = none →
      w.ReadFile (w.Join dir w.FederalRevenueUpdatedAt) = .error e →
      P (some (.wrap ("error reading " ++ w.Join dir w.FederalRevenueUpdatedAt) e),
        ⟨st.trace ++ [.newBadgerStorage st.opened pth none,
          .createJSONRecordsTask dir st.opened s p none] ++ (j.run max).1.map Event.sink ++
          [.run max none, .logOutput 1 "Saving the updated at date to the database…",
            .ReadFile (w.Join dir w.FederalRevenueUpdatedAt) (.error e),
            .close st.opened kv.close], st.opened + 1⟩))
    (hsave : ∀ kv j v, w.newBadgerStorage st.opened pth = .ok kv →
      w.createJSONRecordsTask dir db l kv s p = .ok j → (j.run max).2 = none →
      w.ReadFile (w.Join dir w.FederalRevenueUpdatedAt) = .ok v →
      P (db.MetaSave "updated-at" v,
        ⟨st.trace ++ [.newBadgerStorage st.opened pth none,
          .createJSONRecordsTask dir st.opened s p none] ++ (j.run max).1.map Event.sink ++
          [.run max none, .logOutput 1 "Saving the updated at date to the database…",
            .ReadFile (w.Join dir w.FederalRevenueUpdatedAt) (.ok v),
            .MetaSave "updated-at" v (db.MetaSave "updated-at" v),
            .close st.opened kv.close], st.opened + 1⟩)) :
    P (runStepTwo w dir pth db l max s p st) := by
  rcases ho : w.newBadgerStorage st.opened pth with e | kv
  · simpa [runStepTwo, ho] using hopen e ho
  rcases hc : w.createJSONRecordsTask dir db l kv s p with e | j
  · simpa [runStepTwo, State.emit, ho, hc] using htask kv e ho hc
  rcases hr : (j.run max).2 with _ | e
  swap
  · simpa [runStepTwo, State.emit, ho, hc, hr] using hrun kv j e ho hc hr
  rcases hrd : w.ReadFile (w.Join dir w.FederalRevenueUpdatedAt) with e | v
  · simpa [runStepTwo, saveUpdatedAt, State.emit, ho, hc, hr, hrd] using hread kv j e ho hc hr hrd
  · simpa [runStepTwo, saveUpdatedAt, State.emit, ho, hc, hr, hrd] using hsave kv j v ho hc hr hrd

/-- Every return of `Transform`, up to the returns of step two. -/
theorem Transform_cases (P : error × State → Prop) (w : World) (dir : String)
    (db : database) (max s : Int) (p s1 : Bool) (s2 : String)
    (hmode : s1 = true → s2 ≠ "" →
      P (some (.wrap "error determining transform mode"
        (.new "cannot use both --step-one and --step-two")), ⟨[], 0⟩))
    (hmkdir : ∀ e, s2 = "" → w.MkdirTemp "" ("minha-receita-" ++ w.now ++ "-*") = .error e →
      P (some (.wrap "error creating temporary key-value storage" e),
        ⟨[.MkdirTemp "" ("minha-receita-" ++ w.now ++ "-*") (.error e)], 0⟩))
    (hlookupsTwo : ∀ e, s1 = false → s2 ≠ "" → w.newLookups dir = .error e →
      P (some (.wrap ("error creating look up tables from " ++ dir) e),
        ⟨[.newLookups dir (some e), .RemoveAll s2], 0⟩))
    (hlookups : ∀ pth e, s2 = "" →
      w.MkdirTemp "" ("minha-receita-" ++ w.now ++ "-*") = .ok pth →
      w.newLookups dir = .error e →
      P (some (.wrap ("error creating look up tables from " ++ dir) e),
        ⟨[.MkdirTemp "" ("minha-receita-" ++ w.now ++ "-*") (.ok pth),
          .newLookups dir (some e), .RemoveAll pth], 0⟩))
    (hopen : ∀ pth l e, s2 = "" →
      w.MkdirTemp "" ("minha-receita-" ++ w.now ++ "-*") = .ok pth →
      w.newLookups dir = .ok l → w.newBadgerStorage 0 pth = .error e →
      P (some (.wrap "could not create badger storage" e),
        ⟨[.MkdirTemp "" ("minha-receita-" ++ w.now ++ "-*") (.ok pth),
          .newLookups dir none, .newBadgerStorage 0 pth (some e), .RemoveAll pth], 1⟩))
    (hload : ∀ pth l kv e, s2 = "" →
      w.MkdirTemp "" ("minha-receita-" ++ w.now ++ "-*") = .ok pth →
      w.newLookups dir = .ok l → w.newBadgerStorage 0 pth = .ok kv →
      kv.load dir l = some e →
      P (some (.wrap "error loading data to badger" e),
        ⟨[.MkdirTemp "" ("minha-receita-" ++ w.now ++ "-*") (.ok pth),
          .newLookups dir none, .newBadgerStorage 0 pth none, .load 0 dir (some e),
          .close 0 kv.close, .RemoveAll pth], 1⟩))
    (hone : ∀ pth l kv, s1 = true → s2 = "" →
      w.MkdirTemp "" ("minha-receita-" ++ w.now ++ "-*") = .ok pth →
      w.newLookups dir = .ok l → w.newBadgerStorage 0 pth = .ok kv →
      kv.load dir l = none →
      P (none,
        ⟨[.MkdirTemp "" ("minha-receita-" ++ w.now ++ "-*") (.ok pth),
          .newLookups dir none, .newBadgerStorage 0 pth none, .load 0 dir none,
          .close 0 kv.close, .Println pth, .RemoveAll pth], 1⟩))
    (htwo : ∀ l, s1 = false → s2 ≠ "" → w.newLookups dir = .ok l →
      P ((runStepTwo w dir s2 db l max s p ⟨[.newLookups dir none], 0⟩).1,
        (runStepTwo w dir s2 db l max s p ⟨[.newLookups dir none], 0⟩).2.emit (.RemoveAll s2)))
    (hboth : ∀ pth l kv, s1 = false → s2 = "" →
      w.MkdirTemp "" ("minha-receita-" ++ w.now ++ "-*") = .ok pth →
      w.newLookups dir = .ok l → w.newBadgerStorage 0 pth = .ok kv →
      kv.load dir l = none →
      P ((runStepTwo w dir pth db l max s p
          ⟨[.MkdirTemp "" ("minha-receita-" ++ w.now ++ "-*") (.ok pth),
            .newLookups dir none, .newBadgerStorage 0 pth none, .load 0 dir none,
            .close 0 kv.close], 1⟩).1,
        (runStepTwo w dir pth db l max s p
          ⟨[.MkdirTemp "" ("minha-receita-" ++ w.now ++ "-*") (.ok pth),
            .newLookups dir none, .newBadgerStorage 0 pth none, .load 0 dir none,
            .close 0 kv.close], 1⟩).2.emit (.RemoveAll pth))) :
    P (Transform w dir db max s p s1 s2) := by
  by_cases h2 : s2 = ""
  · subst h2
    rcases hmk : w.MkdirTemp "" ("minha-receita-" ++ w.now ++ "-*") with e | pth
    · have h := hmkdir e rfl hmk
      cases s1 <;> simpa [Transform, transformMode, State.emit, hmk] using h
    rcases hl : w.newLookups dir with e | l
    · have h := hlookups pth e rfl hmk hl
      cases s1 <;> simpa [Transform, transformMode, State.emit, hmk, hl] using h
    rcases ho : w.newBadgerStorage 0 pth with e | kv
    · have h := hopen pth l e rfl hmk hl ho
      cases s1 <;> simpa [Transform, transformMode, runStepOne, State.emit, hmk, hl, ho] using h
    rcases hld : kv.load dir l with _ | e
    swap
    · have h := hload pth l kv e rfl hmk hl ho hld
      cases s1 <;>
        simpa [Transform, transformMode, runStepOne, State.emit, hmk, hl, ho, hld] using h
    cases s1
    · have h := hboth pth l kv rfl rfl hmk hl ho hld
      simpa [Transform, transformMode, runStepOne, State.emit, hmk, hl, ho, hld] using h
    · have h := hone pth l kv rfl rfl hmk hl ho hld
      simpa [Transform, transformMode, runStepOne, State.emit, hmk, hl, ho, hld] using h
  · cases s1
    · rcases hl : w.newLookups dir with e | l
      · simpa [Transform, transformMode, State.emit, h2, hl] using hlookupsTwo e rfl h2 hl
      · simpa [Transform, transformMode, State.emit, h2, hl] using htwo l rfl h2 hl
    · simpa [Transform, transformMode, h2] using hmode rfl h2

/-! ## Calls of the task in a trace -/

/-- The calls of the task on the database open and close no store. -/
theorem handleRun_sink (cur : Option Nat) (cs : List SinkCall) (rest : List Event) :
    handleRun cur (cs.map Event.sink ++ rest) = handleRun cur rest := by
  induction cs with
  | nil => rfl
  | cons c cs ih => simpa [handleRun, handleStep] using ih

/-- The calls of the task on the database are no calls on the store. -/
theorem storeOps_sink (cs : List SinkCall) (rest : List Event) :
    storeOps (cs.map Event.sink ++ rest) = storeOps rest := by
  induction cs with
  | nil => rfl
  | cons c cs ih => simpa [storeOps] using ih

/-- The calls of the task on the database remove no directory. -/
theorem removed_sink (cs : List SinkCall) (rest : List Event) :
    removed (cs.map Event.sink ++ rest) = removed rest := by
  induction cs with
  | nil => rfl
  | cons c cs ih => simpa [removed] using ih

/-- The calls of the task on the database are neither `MetaSave` nor a return
of `run`. -/
theorem savedAfterRun_sink (ran : Bool) (cs : List SinkCall) (rest : List Event) :
    savedAfterRun ran (cs.map Event.sink ++ rest) = savedAfterRun ran rest := by
  induction cs with
  | nil => rfl
  | cons c cs ih => simpa [savedAfterRun] using ih

/-- A test that no call of the task passes can skip them. -/
theorem any_sink (f : Event → Bool) (hf : ∀ c, f (.sink c) = false) (cs : List SinkCall)
    (rest : List Event) : (cs.map Event.sink ++ rest).any f = rest.any f := by
  induction cs with
  | nil => rfl
  | cons c cs ih => simp [hf]

/-- No call of the task counts as a failed step. -/
theorem any_stepFailed_sink (cs : List SinkCall) (rest : List Event) :
    (cs.map Event.sink ++ rest).any stepFailed = rest.any stepFailed :=
  any_sink stepFailed (fun _ => rfl) cs rest

/-- No call of the task counts as a failure of step two. -/
theorem any_batchWriteFailed_sink (cs : List SinkCall) (rest : List Event) :
    (cs.map Event.sink ++ rest).any batchWriteFailed = rest.any batchWriteFailed :=
  any_sink batchWriteFailed (fun _ => rfl) cs rest

/-- No call of the task is `MetaSave`. -/
theorem any_isMetaSave_sink (cs : List SinkCall) (rest : List Event) :
    (cs.map Event.sink ++ rest).any isMetaSave = rest.any isMetaSave :=
  any_sink isMetaSave (fun _ => rfl) cs rest

/-- No call of the task is `os.MkdirTemp`. -/
theorem any_isMkdirTemp_sink (cs : List SinkCall) (rest : List Event) :
    (cs.map Event.sink ++ rest).any isMkdirTemp = rest.any isMkdirTemp :=
  any_sink isMkdirTemp (fun _ => rfl) cs rest

/-! ## The mode -/

/-- C1: `transformMode` follows the mode table. It returns an error exactly
when `s1` is true and `s2` is not empty; otherwise it returns no error and the
mode is `stepOne` for (true, empty), `stepTwo` for (false, not empty) and
`both` for (false, empty). With the error Go returns the zero value of `mode`
(`both`, which is 0) as a placeholder, and the caller, `Transform`, returns at
once without reading it and without doing anything. -/
theorem transformMode_follows_table (s1 : Bool) (s2 : String) :
    ((transformMode s1 s2).2.isSome = true ↔ (s1 = true ∧ s2 ≠ "")) ∧
    (s1 = true ∧ s2 ≠ "" →
      transformMode s1 s2 = (both, some (.new "cannot use both --step-one and --step-two")) ∧
      (transformMode s1 s2).1.toInt = 0 ∧
      ∀ (w : World) (dir : String) (db : database) (max s : Int) (p : Bool),
        Transform w dir db max s p s1 s2 =
          (some (.wrap "error determining transform mode"
            (.new "cannot use both --step-one and --step-two")), ⟨[], 0⟩)) ∧
    (s1 = true ∧ s2 = "" → transformMode s1 s2 = (stepOne, none)) ∧
    (s1 = false ∧ s2 ≠ "" → transformMode s1 s2 = (stepTwo, none)) ∧
    (s1 = false ∧ s2 = "" → transformMode s1 s2 = (both, none)) := by
  cases s1 <;> by_cases h : s2 = "" <;> simp [transformMode, Transform, mode.toInt, h]

/-- C1 at the four corners of the table. -/
theorem transformMode_follows_table_witness :
    transformMode true "/data/kv" =
      (both, some (.new "cannot use both --step-one and --step-two")) ∧
    transformMode true "" = (stepOne, none) ∧
    transformMode false "/data/kv" = (stepTwo, none) ∧
    transformMode false "" = (both, none) :=
  ⟨((transformMode_follows_table true "/data/kv").2.1 ⟨rfl, by decide⟩).1,
   (transformMode_follows_table true "").2.2.1 ⟨rfl, rfl⟩,
   (transformMode_follows_table false "/data/kv").2.2.2.1 ⟨rfl, by decide⟩,
   (transformMode_follows_table false "").2.2.2.2 ⟨rfl, rfl⟩⟩

/-- C2: with `s1` true and `s2` not empty, whatever the other arguments and
the outside, `Transform` returns an error and has called nothing: the trace is
empty (no directory made or removed, no lookup tables, no store, nothing
printed, no database method) and no store was asked for. -/
theorem Transform_invalid_mode_no_effect (w : World) (dir : String) (db : database)
    (max s : Int) (p : Bool) (s2 : String) (h2 : s2 ≠ "") :
    (Transform w dir db max s p true s2).1 =
      some (.wrap "error determining transform mode"
        (.new "cannot use both --step-one and --step-two")) ∧
    (Transform w dir db max s p true s2).2 = ⟨[], 0⟩ := by
  simp [Transform, transformMode, h2]

/-- C2 on an outside where every call would succeed. -/
theorem Transform_invalid_mode_no_effect_witness :
    (Transform okWorld "data" okDb MaxParallelDBQueries BatchSize false true "/data/kv").1 =
      some (.wrap "error determining transform mode"
        (.new "cannot use both --step-one and --step-two")) ∧
    (Transform okWorld "data" okDb MaxParallelDBQueries BatchSize false true "/data/kv").2 =
      ⟨[], 0⟩ :=
  Transform_invalid_mode_no_effect okWorld "data" okDb MaxParallelDBQueries BatchSize false
    "/data/kv" (by decide)

/-! ## The staging directory -/

/-- C3: a run in `stepOne` mode where every call succeeds. The path is printed
once and `Transform` returns `nil`, but its last call is `os.RemoveAll` on the
directory it has just printed: the directory is not on disk when `Transform`
returns, against the comment on `stepOne` ("does not delete it from the
temporary directory"). -/
theorem Transform_stepOne_removes_staging_dir :
    Transform okWorld "data" okDb MaxParallelDBQueries BatchSize false true "" =
      (none,
        ⟨[.MkdirTemp "" "minha-receita-20240102030405-*"
            (.ok "/tmp/minha-receita-20240102030405-1"),
          .newLookups "data" none,
          .newBadgerStorage 0 "/tmp/minha-receita-20240102030405-1" none,
          .load 0 "data" none,
          .close 0 none,
          .Println "/tmp/minha-receita-20240102030405-1",
          .RemoveAll "/tmp/minha-receita-20240102030405-1"], 1⟩) ∧
    onDisk "/tmp/minha-receita-20240102030405-1" false
      (Transform okWorld "data" okDb MaxParallelDBQueries BatchSize false true "").2.trace =
        false := by
  decide

/-- C4, as stated, fails: a run in `stepTwo` mode on the directory `/data/kv`
of the caller, where every call succeeds, calls `os.RemoveAll` on `/data/kv`,
which was on disk before the run and is not after it. -/
theorem Transform_stepTwo_removes_supplied_dir :
    (Transform okWorld "data" okDb MaxParallelDBQueries BatchSize false false "/data/kv").1 =
      none ∧
    removed
      (Transform okWorld "data" okDb MaxParallelDBQueries BatchSize false false
        "/data/kv").2.trace = ["/data/kv"] ∧
    onDisk "/data/kv" true
      (Transform okWorld "data" okDb MaxParallelDBQueries BatchSize false false
        "/data/kv").2.trace = false := by
  decide

/-- C4, amended: in `stepTwo` mode (`s1` false, `s2` not empty), whether the
run succeeds or fails, `Transform` makes no temporary directory, and the one
cleanup it schedules is on `pth`, which is the directory `s2` of the caller:
`os.RemoveAll(s2)` is the only removal and the last call of the run. -/
theorem Transform_stepTwo_cleanup (w : World) (dir : String) (db : database) (max s : Int)
    (p : Bool) (s2 : String) (h2 : s2 ≠ "") :
    (Transform w dir db max s p false s2).2.trace.any isMkdirTemp = false ∧
    removed (Transform w dir db max s p false s2).2.trace = [s2] ∧
    (Transform w dir db max s p false s2).2.trace.getLast? = some (.RemoveAll s2) := by
  have hlast :
      (Transform w dir db max s p false s2).2.trace.getLast? = some (.RemoveAll s2) := by
    simp [Transform, transformMode, h2, State.emit]
  have hdirs : (Transform w dir db max s p false s2).2.trace.any isMkdirTemp = false ∧
      removed (Transform w dir db max s p false s2).2.trace = [s2] := by
    refine Transform_cases (fun r =>
      r.2.trace.any isMkdirTemp = false ∧ removed r.2.trace = [s2])
      w dir db max s p false s2 ?_ ?_ ?_ ?_ ?_ ?_ ?_ ?_ ?_
    · intro h1; cases h1
    · intro e h; exact absurd h h2
    · intro e _ _ _; simp [isMkdirTemp, removed]
    · intro pth e h; exact absurd h h2
    · intro pth l e h; exact absurd h h2
    · intro pth l kv e h; exact absurd h h2
    · intro pth l kv h1; cases h1
    · intro l _ _ _
      refine runStepTwo_cases (fun r =>
        (r.2.emit (.RemoveAll s2)).trace.any isMkdirTemp = false ∧
        removed (r.2.emit (.RemoveAll s2)).trace = [s2])
        w dir s2 db l max s p _ ?_ ?_ ?_ ?_ ?_ <;>
      intros <;>
      simp [State.emit, isMkdirTemp, any_isMkdirTemp_sink, removed, removed_sink]
    · intro pth l kv _ h; exact absurd h h2
  exact ⟨hdirs.1, hdirs.2, hlast⟩

/-- C4, amended, on a run whose batch write fails. -/
theorem Transform_stepTwo_cleanup_witness :
    removed
      (Transform badRunWorld "data" okDb MaxParallelDBQueries BatchSize false false
        "/data/kv").2.trace = ["/data/kv"] :=
  (Transform_stepTwo_cleanup badRunWorld "data" okDb MaxParallelDBQueries BatchSize false
    "/data/kv" (by decide)).2.1

/-- C5: in `both` mode (`s1` false, `s2` empty), once `os.MkdirTemp` has made
the directory `pth`, whatever the later steps return, the last call of
`Transform` is `os.RemoveAll(pth)`, so `pth` is not on disk when `Transform`
returns. -/
theorem Transform_both_removes_temp_dir (w : World) (dir : String) (db : database)
    (max s : Int) (p : Bool) (pth : String)
    (hmk : w.MkdirTemp "" ("minha-receita-" ++ w.now ++ "-*") = .ok pth) :
    (Transform w dir db max s p false "").2.trace.getLast? = some (.RemoveAll pth) ∧
    ∀ present : Bool, onDisk pth present (Transform w dir db max s p false "").2.trace = false := by
  simp [Transform, transformMode, hmk, State.emit, onDisk, diskStep]

/-- C5 on a run whose batch write fails. -/
theorem Transform_both_removes_temp_dir_witness :
    (Transform badRunWorld "data" okDb MaxParallelDBQueries BatchSize false false
        "").2.trace.getLast? = some (.RemoveAll "/tmp/minha-receita-20240102030405-1") :=
  (Transform_both_removes_temp_dir badRunWorld "data" okDb MaxParallelDBQueries BatchSize false
    "/tmp/minha-receita-20240102030405-1" rfl).1

/-! ## The updated-at date -/

/-- C6: in `stepTwo` or `both` mode (`s1` false), when a store could not be
opened, the task could not be created, or the task's `run` returned an error,
`Transform` returns an error and `MetaSave` is not called in the run. And in
every run, each call of `MetaSave` comes after the task's `run` has returned
`nil`. -/
theorem Transform_MetaSave_only_after_run (w : World) (dir : String) (db : database)
    (max s : Int) (p : Bool) (s2 : String) :
    ((Transform w dir db max s p false s2).2.trace.any batchWriteFailed = true →
      (Transform w dir db max s p false s2).1.isSome = true ∧
      (Transform w dir db max s p false s2).2.trace.any isMetaSave = false) ∧
    savedAfterRun false (Transform w dir db max s p false s2).2.trace = true := by
  refine Transform_cases (fun r =>
    (r.2.trace.any batchWriteFailed = true →
      r.1.isSome = true ∧ r.2.trace.any isMetaSave = false) ∧
    savedAfterRun false r.2.trace = true) w dir db max s p false s2 ?_ ?_ ?_ ?_ ?_ ?_ ?_ ?_ ?_
  · intros; simp [savedAfterRun, batchWriteFailed, isMetaSave]
  · intros; simp [savedAfterRun, batchWriteFailed, isMetaSave]
  · intros; simp [savedAfterRun, batchWriteFailed, isMetaSave]
  · intros; simp [savedAfterRun, batchWriteFailed, isMetaSave]
  · intros; simp [savedAfterRun, batchWriteFailed, isMetaSave]
  · intros; simp [savedAfterRun, batchWriteFailed, isMetaSave]
  · intros; simp [savedAfterRun, batchWriteFailed, isMetaSave]
  · intro l _ _ _
    refine runStepTwo_cases (fun r =>
      ((r.2.emit (.RemoveAll s2)).trace.any batchWriteFailed = true →
        r.1.isSome = true ∧ (r.2.emit (.RemoveAll s2)).trace.any isMetaSave = false) ∧
      savedAfterRun false (r.2.emit (.RemoveAll s2)).trace = true)
      w dir s2 db l max s p _ ?_ ?_ ?_ ?_ ?_ <;>
    intros <;>
    simp [savedAfterRun, savedAfterRun_sink, any_batchWriteFailed_sink, any_isMetaSave_sink,
      State.emit, batchWriteFailed, isMetaSave]
  · intro pth l kv _ _ _ _ _ _
    refine runStepTwo_cases (fun r =>
      ((r.2.emit (.RemoveAll pth)).trace.any batchWriteFailed = true →
        r.1.isSome = true ∧ (r.2.emit (.RemoveAll pth)).trace.any isMetaSave = false) ∧
      savedAfterRun false (r.2.emit (.RemoveAll pth)).trace = true)
      w dir pth db l max s p _ ?_ ?_ ?_ ?_ ?_ <;>
    intros <;>
    simp [savedAfterRun, savedAfterRun_sink, any_batchWriteFailed_sink, any_isMetaSave_sink,
      State.emit, batchWriteFailed, isMetaSave]

/-- C6 on a run in `both` mode whose batch write fails. -/
theorem Transform_MetaSave_only_after_run_witness :
    (Transform badRunWorld "data" okDb MaxParallelDBQueries BatchSize false false
        "").2.trace.any batchWriteFailed = true ∧
    (Transform badRunWorld "data" okDb MaxParallelDBQueries BatchSize false false "").1.isSome =
      true ∧
    (Transform badRunWorld "data" okDb MaxParallelDBQueries BatchSize false false
        "").2.trace.any isMetaSave = false :=
  ⟨by decide,
    (Transform_MetaSave_only_after_run badRunWorld "data" okDb MaxParallelDBQueries BatchSize
      false "").1 (by decide)⟩

/-- C7: `saveUpdatedAt(db, dir)` reads the updated-at file of `dir`. When the
read fails it returns that error, wrapped, and does not call `MetaSave`. When
the read succeeds it calls `MetaSave` once, with the key "updated-at" and the
whole content of the file as the value, and returns what `MetaSave` returned:
`nil` exactly when `MetaSave` returned `nil`. -/
theorem saveUpdatedAt_reads_then_saves (w : World) (db : database) (dir : String) (st : State) :
    (∀ e, w.ReadFile (w.Join dir w.FederalRevenueUpdatedAt) = .error e →
      (saveUpdatedAt w db dir st).1 =
        some (.wrap ("error reading " ++ w.Join dir w.FederalRevenueUpdatedAt) e) ∧
      (saveUpdatedAt w db dir st).2.trace = st.trace ++
        [.logOutput 1 "Saving the updated at date to the database…",
          .ReadFile (w.Join dir w.FederalRevenueUpdatedAt) (.error e)]) ∧
    (∀ v, w.ReadFile (w.Join dir w.FederalRevenueUpdatedAt) = .ok v →
      (saveUpdatedAt w db dir st).1 = db.MetaSave "updated-at" v ∧
      ((saveUpdatedAt w db dir st).1 = none ↔ db.MetaSave "updated-at" v = none) ∧
      (saveUpdatedAt w db dir st).2.trace = st.trace ++
        [.logOutput 1 "Saving the updated at date to the database…",
          .ReadFile (w.Join dir w.FederalRevenueUpdatedAt) (.ok v),
          .MetaSave "updated-at" v (db.MetaSave "updated-at" v)]) := by
  constructor
  · intro e h
    simp [saveUpdatedAt, State.emit, h]
  · intro v h
    simp [saveUpdatedAt, State.emit, h]

/-- C7 on a file that cannot be read, and on a file that holds a date while
the database refuses to save it. -/
theorem saveUpdatedAt_reads_then_saves_witness :
    (saveUpdatedAt noFileWorld okDb "data" ⟨[], 0⟩).1 =
      some (.wrap "error reading data/updated_at.txt" (.new "no such file")) ∧
    (saveUpdatedAt okWorld badMetaDb "data" ⟨[], 0⟩).2.trace =
      [.logOutput 1 "Saving the updated at date to the database…",
        .ReadFile "data/updated_at.txt" (.ok "2024-01-02"),
        .MetaSave "updated-at" "2024-01-02" (some (.new "connection refused"))] :=
  ⟨((saveUpdatedAt_reads_then_saves noFileWorld okDb "data" ⟨[], 0⟩).1
      (.new "no such file") rfl).1,
    ((saveUpdatedAt_reads_then_saves okWorld badMetaDb "data" ⟨[], 0⟩).2
      "2024-01-02" rfl).2.2⟩

/-! ## Errors -/

/-- C8: a run in `stepTwo` mode where every call succeeds but `MetaSave`,
which returns the error "connection refused". `Transform` returns that very
error, with no context around it (it wraps nothing), while on the path next to
it, where the file cannot be read, the error comes back wrapped with the path
of the file. -/
theorem Transform_MetaSave_error_is_bare :
    (Transform okWorld "data" badMetaDb MaxParallelDBQueries BatchSize false false
        "/data/kv").1 = some (.new "connection refused") ∧
    Event.MetaSave "updated-at" "2024-01-02" (some (.new "connection refused")) ∈
      (Transform okWorld "data" badMetaDb MaxParallelDBQueries BatchSize false false
        "/data/kv").2.trace ∧
    Err.Unwrap (.new "connection refused") = none ∧
    (Transform noFileWorld "data" okDb MaxParallelDBQueries BatchSize false false
        "/data/kv").1 =
      some (.wrap "error reading data/updated_at.txt" (.new "no such file")) := by
  decide

/-- Every error that `Transform` returns was made by `fmt.Errorf` around a
cause found in its chain, but for one: the error of `MetaSave`, returned as it
came. -/
theorem Transform_error_context (w : World) (dir : String) (db : database) (max s : Int)
    (p s1 : Bool) (s2 : String) (err : Err)
    (h : (Transform w dir db max s p s1 s2).1 = some err) :
    (∃ ctx cause, err = .wrap ctx cause ∧ cause ∈ err.chain) ∨
    ∃ v, Event.MetaSave "updated-at" v (some err) ∈ (Transform w dir db max s p s1 s2).2.trace := by
  revert h
  refine Transform_cases (fun r =>
    r.1 = some err →
      (∃ ctx cause, err = .wrap ctx cause ∧ cause ∈ err.chain) ∨
      ∃ v, Event.MetaSave "updated-at" v (some err) ∈ r.2.trace)
    w dir db max s p s1 s2 ?_ ?_ ?_ ?_ ?_ ?_ ?_ ?_ ?_
  · intro _ _ h; cases h; left; exact ⟨_, _, rfl, by simp [Err.chain]⟩
  · intro e _ _ h; cases h; left; exact ⟨_, _, rfl, by cases e <;> simp [Err.chain]⟩
  · intro e _ _ _ h; cases h; left; exact ⟨_, _, rfl, by cases e <;> simp [Err.chain]⟩
  · intro _ e _ _ _ h; cases h; left; exact ⟨_, _, rfl, by cases e <;> simp [Err.chain]⟩
  · intro _ _ e _ _ _ _ h; cases h; left; exact ⟨_, _, rfl, by cases e <;> simp [Err.chain]⟩
  · intro _ _ _ e _ _ _ _ _ h; cases h; left
    exact ⟨_, _, rfl, by cases e <;> simp [Err.chain]⟩
  · intro _ _ _ _ _ _ _ _ _ h; cases h
  · intro l _ _ _
    refine runStepTwo_cases (fun r =>
      r.1 = some err →
        (∃ ctx cause, err = .wrap ctx cause ∧ cause ∈ err.chain) ∨
        ∃ v, Event.MetaSave "updated-at" v (some err) ∈ (r.2.emit (.RemoveAll s2)).trace)
      w dir s2 db l max s p _ ?_ ?_ ?_ ?_ ?_
    · intro e _ h; cases h; left; exact ⟨_, _, rfl, by cases e <;> simp [Err.chain]⟩
    · intro _ e _ _ h; cases h; left; exact ⟨_, _, rfl, by cases e <;> simp [Err.chain]⟩
    · intro _ _ e _ _ _ h; cases h; left; exact ⟨_, _, rfl, by cases e <;> simp [Err.chain]⟩
    · intro _ _ e _ _ _ _ h; cases h; left; exact ⟨_, _, rfl, by cases e <;> simp [Err.chain]⟩
    · intro _ _ v _ _ _ _ h
      have h0 : db.MetaSave "updated-at" v = some err := h
      right
      exact ⟨v, by simp [State.emit, h0]⟩
  · intro q l kv _ _ _ _ _ _
    refine runStepTwo_cases (fun r =>
      r.1 = some err →
        (∃ ctx cause, err = .wrap ctx cause ∧ cause ∈ err.chain) ∨
        ∃ v, Event.MetaSave "updated-at" v (some err) ∈ (r.2.emit (.RemoveAll q)).trace)
      w dir q db l max s p _ ?_ ?_ ?_ ?_ ?_
    · intro e _ h; cases h; left; exact ⟨_, _, rfl, by cases e <;> simp [Err.chain]⟩
    · intro _ e _ _ h; cases h; left; exact ⟨_, _, rfl, by cases e <;> simp [Err.chain]⟩
    · intro _ _ e _ _ _ h; cases h; left; exact ⟨_, _, rfl, by cases e <;> simp [Err.chain]⟩
    · intro _ _ e _ _ _ _ h; cases h; left; exact ⟨_, _, rfl, by cases e <;> simp [Err.chain]⟩
    · intro _ _ v _ _ _ _ h
      have h0 : db.MetaSave "updated-at" v = some err := h
      right
      exact ⟨v, by simp [State.emit, h0]⟩

/-! ## The staging store -/

/-- C9, as stated, fails: a run in `both` mode where every call succeeds but
`close`, which fails on both stores. `Transform` returns `nil`. -/
theorem Transform_close_error_ignored :
    (Transform badCloseWorld "data" okDb MaxParallelDBQueries BatchSize false false "").1 =
      none ∧
    storeOps
      (Transform badCloseWorld "data" okDb MaxParallelDBQueries BatchSize false false
        "").2.trace =
      [.newBadgerStorage 0 "/tmp/minha-receita-20240102030405-1" none,
        .close 0 (some (.new "cannot flush")),
        .newBadgerStorage 1 "/tmp/minha-receita-20240102030405-1" none,
        .close 1 (some (.new "cannot flush"))] := by
  decide

/-- C9, amended: in a run with a valid mode, the result of `close` is dropped
(the call is deferred and its error is not read): `Transform` returns an error
exactly when a step other than `close` failed (the temporary directory, the
lookup tables, opening a store, the load, creating the task, its run, reading
the updated-at file, `MetaSave`). A store that cannot be opened is fatal:
`Transform` returns that error, wrapped as "could not create badger
storage". -/
theorem Transform_close_result_dropped (w : World) (dir : String) (db : database) (max s : Int)
    (p s1 : Bool) (s2 : String) (hmode : s1 = false ∨ s2 = "") :
    ((Transform w dir db max s p s1 s2).1.isSome =
      (Transform w dir db max s p s1 s2).2.trace.any stepFailed) ∧
    ∀ h pth e, Event.newBadgerStorage h pth (some e) ∈ (Transform w dir db max s p s1 s2).2.trace →
      (Transform w dir db max s p s1 s2).1 = some (.wrap "could not create badger storage" e) := by
  refine Transform_cases (fun r =>
    (r.1.isSome = r.2.trace.any stepFailed) ∧
    ∀ h pth e, Event.newBadgerStorage h pth (some e) ∈ r.2.trace →
      r.1 = some (.wrap "could not create badger storage" e))
    w dir db max s p s1 s2 ?_ ?_ ?_ ?_ ?_ ?_ ?_ ?_ ?_
  · intro h1 h2
    rcases hmode with h | h
    · rw [h1] at h; cases h
    · exact absurd h h2
  · intros; simp [stepFailed]
  · intros; simp [stepFailed]
  · intros; simp [stepFailed]
  · intros; simp [stepFailed, eq_comm]
  · intros; simp [stepFailed]
  · intros; simp [stepFailed]
  · intro l _ _ _
    refine runStepTwo_cases (fun r =>
      (r.1.isSome = (r.2.emit (.RemoveAll s2)).trace.any stepFailed) ∧
      ∀ h pth e, Event.newBadgerStorage h pth (some e) ∈ (r.2.emit (.RemoveAll s2)).trace →
        r.1 = some (.wrap "could not create badger storage" e))
      w dir s2 db l max s p _ ?_ ?_ ?_ ?_ ?_
    · intros; simp [State.emit, stepFailed, eq_comm]
    · intros; simp [State.emit, stepFailed]
    · intros; simp [State.emit, stepFailed, any_stepFailed_sink]
    · intros; simp [State.emit, stepFailed, any_stepFailed_sink]
    · intro kv j v _ _ _ _
      cases db.MetaSave "updated-at" v <;> simp [State.emit, stepFailed, any_stepFailed_sink]
  · intro q l kv _ _ _ _ _ _
    refine runStepTwo_cases (fun r =>
      (r.1.isSome = (r.2.emit (.RemoveAll q)).trace.any stepFailed) ∧
      ∀ h pth e, Event.newBadgerStorage h pth (some e) ∈ (r.2.emit (.RemoveAll q)).trace →
        r.1 = some (.wrap "could not create badger storage" e))
      w dir q db l max s p _ ?_ ?_ ?_ ?_ ?_
    · intros; simp [State.emit, stepFailed, eq_comm]
    · intros; simp [State.emit, stepFailed]
    · intros; simp [State.emit, stepFailed, any_stepFailed_sink]
    · intros; simp [State.emit, stepFailed, any_stepFailed_sink]
    · intro kv j v _ _ _ _
      cases db.MetaSave "updated-at" v <;> simp [State.emit, stepFailed, any_stepFailed_sink]

/-- C9, amended, on the run where both stores fail to close: no step that
counts has failed, and no error is returned. -/
theorem Transform_close_result_dropped_witness :
    (Transform badCloseWorld "data" okDb MaxParallelDBQueries BatchSize false false "").1.isSome =
      (Transform badCloseWorld "data" okDb MaxParallelDBQueries BatchSize false false
        "").2.trace.any stepFailed :=
  (Transform_close_result_dropped badCloseWorld "data" okDb MaxParallelDBQueries BatchSize false
    false "" (Or.inl rfl)).1

/-- C10: in every run of `Transform`, whatever the collaborators return, a
store is opened only while no handle is open, `close` is only called on the
handle that is open, and no handle is open when `Transform` returns: at most
one handle is open at any point, and each handle that was opened is closed
once. In `both` mode the calls on the store are, in order, an initial part of:
open handle 0 on `pth`, close handle 0, open handle 1 on the same `pth`, close
handle 1, where an initial part ends on a `close` or on an open that failed. -/
theorem Transform_store_handles (w : World) (dir : String) (db : database) (max s : Int)
    (p s1 : Bool) (s2 : String) :
    handleRun none (Transform w dir db max s p s1 s2).2.trace = some none ∧
    ∀ pth, s1 = false → s2 = "" →
      w.MkdirTemp "" ("minha-receita-" ++ w.now ++ "-*") = .ok pth →
      storeOps (Transform w dir db max s p s1 s2).2.trace = [] ∨
      (∃ e, storeOps (Transform w dir db max s p s1 s2).2.trace =
        [.newBadgerStorage 0 pth (some e)]) ∨
      (∃ r, storeOps (Transform w dir db max s p s1 s2).2.trace =
        [.newBadgerStorage 0 pth none, .close 0 r]) ∨
      (∃ r e, storeOps (Transform w dir db max s p s1 s2).2.trace =
        [.newBadgerStorage 0 pth none, .close 0 r, .newBadgerStorage 1 pth (some e)]) ∨
      (∃ r r1, storeOps (Transform w dir db max s p s1 s2).2.trace =
        [.newBadgerStorage 0 pth none, .close 0 r, .newBadgerStorage 1 pth none, .close 1 r1]) := by
  refine Transform_cases (fun r =>
    handleRun none r.2.trace = some none ∧
    ∀ pth, s1 = false → s2 = "" →
      w.MkdirTemp "" ("minha-receita-" ++ w.now ++ "-*") = .ok pth →
      storeOps r.2.trace = [] ∨
      (∃ e, storeOps r.2.trace = [.newBadgerStorage 0 pth (some e)]) ∨
      (∃ r0, storeOps r.2.trace = [.newBadgerStorage 0 pth none, .close 0 r0]) ∨
      (∃ r0 e, storeOps r.2.trace =
        [.newBadgerStorage 0 pth none, .close 0 r0, .newBadgerStorage 1 pth (some e)]) ∨
      (∃ r0 r1, storeOps r.2.trace =
        [.newBadgerStorage 0 pth none, .close 0 r0, .newBadgerStorage 1 pth none, .close 1 r1]))
    w dir db max s p s1 s2 ?_ ?_ ?_ ?_ ?_ ?_ ?_ ?_ ?_
  · intro h1 h2
    simp [handleRun, storeOps]
  · intro e h2 hmk
    simp [handleRun, handleStep, storeOps]
  · intro e h1 h2 hl
    simp [handleRun, handleStep, storeOps]
  · intro pth e h2 hmk hl
    simp [handleRun, handleStep, storeOps]
  · intro pth l e h2 hmk hl ho
    simp [handleRun, handleStep, storeOps, hmk]
  · intro pth l kv e h2 hmk hl ho hld
    simp [handleRun, handleStep, storeOps, hmk]
  · intro pth l kv h1 h2 hmk hl ho hld
    simp [handleRun, handleStep, storeOps, hmk, h1]
  · intro l h1 h2 hl
    refine runStepTwo_cases (fun r =>
      handleRun none (r.2.emit (.RemoveAll s2)).trace = some none ∧
      ∀ pth, s1 = false → s2 = "" →
        w.MkdirTemp "" ("minha-receita-" ++ w.now ++ "-*") = .ok pth →
        storeOps (r.2.emit (.RemoveAll s2)).trace = [] ∨
        (∃ e, storeOps (r.2.emit (.RemoveAll s2)).trace = [.newBadgerStorage 0 pth (some e)]) ∨
        (∃ r0, storeOps (r.2.emit (.RemoveAll s2)).trace =
          [.newBadgerStorage 0 pth none, .close 0 r0]) ∨
        (∃ r0 e, storeOps (r.2.emit (.RemoveAll s2)).trace =
          [.newBadgerStorage 0 pth none, .close 0 r0, .newBadgerStorage 1 pth (some e)]) ∨
        (∃ r0 r1, storeOps (r.2.emit (.RemoveAll s2)).trace =
          [.newBadgerStorage 0 pth none, .close 0 r0, .newBadgerStorage 1 pth none,
            .close 1 r1]))
      w dir s2 db l max s p _ ?_ ?_ ?_ ?_ ?_ <;>
    intros <;>
    simp [handleRun, handleStep, handleRun_sink, State.emit, h2]
  · intro pth l kv h1 h2 hmk hl ho hld
    refine runStepTwo_cases (fun r =>
      handleRun none (r.2.emit (.RemoveAll pth)).trace = some none ∧
      ∀ q, s1 = false → s2 = "" →
        w.MkdirTemp "" ("minha-receita-" ++ w.now ++ "-*") = .ok q →
        storeOps (r.2.emit (.RemoveAll pth)).trace = [] ∨
        (∃ e, storeOps (r.2.emit (.RemoveAll pth)).trace = [.newBadgerStorage 0 q (some e)]) ∨
        (∃ r0, storeOps (r.2.emit (.RemoveAll pth)).trace =
          [.newBadgerStorage 0 q none, .close 0 r0]) ∨
        (∃ r0 e, storeOps (r.2.emit (.RemoveAll pth)).trace =
          [.newBadgerStorage 0 q none, .close 0 r0, .newBadgerStorage 1 q (some e)]) ∨
        (∃ r0 r1, storeOps (r.2.emit (.RemoveAll pth)).trace =
          [.newBadgerStorage 0 q none, .close 0 r0, .newBadgerStorage 1 q none,
            .close 1 r1]))
      w dir pth db l max s p _ ?_ ?_ ?_ ?_ ?_ <;>
    intros <;>
    simp [handleRun, handleStep, handleRun_sink, storeOps_sink, State.emit, hmk, storeOps]

/-- C10 on a run in `both` mode whose batch write fails: both handles were
opened on the same path, the first closed before the second was opened. -/
theorem Transform_store_handles_witness :
    handleRun none
      (Transform badRunWorld "data" okDb MaxParallelDBQueries BatchSize false false
        "").2.trace = some none ∧
    storeOps
      (Transform badRunWorld "data" okDb MaxParallelDBQueries BatchSize false false
        "").2.trace =
      [.newBadgerStorage 0 "/tmp/minha-receita-20240102030405-1" none, .close 0 none,
        .newBadgerStorage 1 "/tmp/minha-receita-20240102030405-1" none, .close 1 none] :=
  ⟨(Transform_store_handles badRunWorld "data" okDb MaxParallelDBQueries BatchSize false false
      "").1, by decide⟩

end MinhaReceita
